import Mathlib

/-!
Verification of the grounding-resistance calculation engine of the
antenna-grounding simulator (`groundMath.js`), together with the humidity
mutation paths of the surrounding application (`main.js`, `terrain.js`,
`climate.js`).

JavaScript numbers are modelled as real numbers, with the value `Infinity`
(returned by the degenerate-geometry and zero-rod guards and propagated by
ordinary arithmetic) modelled by `⊤ : EReal`.  Quantities that can never be
infinite in the source (resistivities, factors, counts, lengths) are plain
reals; quantities that flow through the `Infinity` guards (rod resistance,
total resistance, fault current) live in `EReal`.
-/

noncomputable section

namespace GroundingSim

open scoped Real

/-- Table `SOIL_RESISTIVITY` from `groundMath.js`: base resistivity (Ω·m)
per soil tag; absent tags give `none` (JS `undefined`). -/
def SOIL_RESISTIVITY (soil : String) : Option ℝ :=
  if soil = "wet" then some 10
  else if soil = "clay" then some 40
  else if soil = "loam" then some 100
  else if soil = "sandy" then some 200
  else if soil = "gravel" then some 400
  else if soil = "rocky" then some 1000
  else if soil = "dry" then some 1500
  else none

/-- Function `getCouplingFactor(spacing, length)` from `groundMath.js`: piecewise step
function of the quotient `spacing / length`. -/
def getCouplingFactor (spacing length : ℝ) : ℝ :=
  if 2 ≤ spacing / length then 0
  else if 1.5 ≤ spacing / length then 0.1
  else if 1 ≤ spacing / length then 0.2
  else if 0.7 ≤ spacing / length then 0.35
  else if 0.5 ≤ spacing / length then 0.5
  else 0.7

/-- Function `calculateSingleRodResistance(resistivity, length, diameter)` from
`groundMath.js`: `Infinity` on non-positive geometry, otherwise
`(ρ / 2πL) · ln(4L/d)`. -/
def calculateSingleRodResistance (resistivity length diameter : ℝ) : EReal :=
  if length ≤ 0 ∨ diameter ≤ 0 then ⊤
  else ((resistivity / (2 * π * length) * Real.log (4 * length / diameter) : ℝ) : EReal)

/-- Function `calculateParallelResistance(singleRodResistance, rodCount, couplingFactor)`
from `groundMath.js`: `Infinity` when `rodCount ≤ 0`, the single-rod value when
`rodCount = 1`, otherwise `R / n · (1 + λ·(n−1))`. -/
def calculateParallelResistance (singleRodResistance : EReal)
    (rodCount couplingFactor : ℝ) : EReal :=
  if rodCount ≤ 0 then ⊤
  else if rodCount = 1 then singleRodResistance
  else singleRodResistance / (rodCount : EReal)
    * ((1 + couplingFactor * (rodCount - 1) : ℝ) : EReal)

/-- Function `calculateRadialContribution(baseResistance, radialCount, radialLength)`
from `groundMath.js`: multiplicative reduction factor; the `baseResistance`
argument is received but never read. -/
def calculateRadialContribution (baseResistance : EReal)
    (radialCount radialLength : ℝ) : ℝ :=
  if radialCount = 0 ∨ radialLength = 0 then 1
  else 1 - min 0.4 (radialCount * radialLength * 0.005)

/-- Function `adjustResistivityForWeather(baseResistivity, weather, humidity)` from
`groundMath.js`: weather factor by switch (default 1.0), then multiplied by
`1 − humidity·0.3`, applied to the base resistivity. -/
def adjustResistivityForWeather (baseResistivity : ℝ) (weather : String)
    (humidity : ℝ) : ℝ :=
  baseResistivity *
    ((if weather = "rain" then 0.5
      else if weather = "storm" then 0.3
      else if weather = "snow" then 1.2
      else if weather = "sunny" then 1
      else 1) * (1 - humidity * 0.3))

/-- Function `calculateEfficiency(resistance, targetResistance)` from `groundMath.js`.
The final branch is only reachable with `0 < resistance < 10·target`, where the
`EReal` resistance is finite, so its real part is taken there. -/
def calculateEfficiency (resistance : EReal) (targetResistance : ℝ) : ℝ :=
  if resistance ≤ 0 then 100
  else if ((targetResistance * 10 : ℝ) : EReal) ≤ resistance then 0
  else max 0 (min 100
    ((1 - (resistance.toReal - targetResistance) / (targetResistance * 9)) * 100))

/-- Function `calculateFaultCurrent(voltage, resistance)` from `groundMath.js`:
explicit guard at non-positive resistance, otherwise Ohm's law (JS division,
so `voltage / Infinity = 0`). -/
def calculateFaultCurrent (voltage : ℝ) (resistance : EReal) : EReal :=
  if resistance ≤ 0 then 0
  else ((voltage : ℝ) : EReal) / resistance

/-- Status record returned by `getSystemStatus` in `groundMath.js`. -/
structure SystemStatus where
  status : String
  color : String
  message : String
  deriving DecidableEq, Repr

/-- Function `getSystemStatus(resistance)` from `groundMath.js`: stepped classification
with inclusive upper thresholds 5, 10, 25. -/
def getSystemStatus (resistance : EReal) : SystemStatus :=
  if resistance ≤ ((5 : ℝ) : EReal) then
    { status := "excellent", color := "#00ff88", message := "Excelente" }
  else if resistance ≤ ((10 : ℝ) : EReal) then
    { status := "good", color := "#88ff00", message := "Bueno" }
  else if resistance ≤ ((25 : ℝ) : EReal) then
    { status := "warning", color := "#ffaa00", message := "Advertencia" }
  else
    { status := "danger", color := "#ff4444", message := "Peligro" }

/-- The mutable parameter record of the `GroundingSystem` class in
`groundMath.js` (fields in constructor order). -/
structure GroundingSystem where
  rodCount : ℝ
  rodLength : ℝ
  rodDiameter : ℝ
  rodSpacing : ℝ
  radialCount : ℝ
  radialLength : ℝ
  soilType : String
  weather : String
  humidity : ℝ
  faultVoltage : ℝ
  targetResistance : ℝ

/-- The `GroundingSystem` constructor defaults from `groundMath.js`. -/
def GroundingSystem.init : GroundingSystem :=
  { rodCount := 4
    rodLength := 2.4
    rodDiameter := 0.016
    rodSpacing := 3
    radialCount := 8
    radialLength := 5
    soilType := "clay"
    weather := "sunny"
    humidity := 0.5
    faultVoltage := 220
    targetResistance := 5 }

/-- The metrics snapshot returned by `GroundingSystem.calculate()`. -/
structure GroundingMetrics where
  resistivity : ℝ
  singleRodResistance : EReal
  couplingFactor : ℝ
  totalResistance : EReal
  efficiency : ℝ
  faultCurrent : EReal
  status : SystemStatus

/-- Method `GroundingSystem.calculate()` from `groundMath.js`: the local variables of
the method body become `let` bindings (`resistivity` is re-assigned by the
weather adjustment, `totalR` by the radial factor); the method reads the
configuration fields and assigns none of them. -/
def GroundingSystem.calculate (sys : GroundingSystem) : GroundingMetrics :=
  let resistivity0 := (SOIL_RESISTIVITY sys.soilType).getD 100
  let resistivity := adjustResistivityForWeather resistivity0 sys.weather sys.humidity
  let singleRodR := calculateSingleRodResistance resistivity sys.rodLength sys.rodDiameter
  let coupling := getCouplingFactor sys.rodSpacing sys.rodLength
  let totalR0 := calculateParallelResistance singleRodR sys.rodCount coupling
  let radialFactor := calculateRadialContribution totalR0 sys.radialCount sys.radialLength
  let totalR := totalR0 * ((radialFactor : ℝ) : EReal)
  { resistivity := resistivity
    singleRodResistance := singleRodR
    couplingFactor := coupling
    totalResistance := totalR
    efficiency := calculateEfficiency totalR sys.targetResistance
    faultCurrent := calculateFaultCurrent sys.faultVoltage totalR
    status := getSystemStatus totalR }

/-- Method `calculate()` as a state transformer on the configuration: the method body
contains no assignment to any `this` field, so the configuration component of
the result is the incoming configuration unchanged. -/
def GroundingSystem.calculateS (sys : GroundingSystem) :
    GroundingSystem × GroundingMetrics :=
  (sys, sys.calculate)

/-- Method `Terrain.setHumidity(value)` from `terrain.js`: the terrain stores
`Math.max(0, Math.min(1, value))`. -/
def Terrain.setHumidity (value : ℝ) : ℝ :=
  max 0 (min 1 value)

/-- Humidity assigned by `ClimateSystem.setWeather(weather)` in `climate.js`
(the `sunny` arm is also the `default` arm of the switch). -/
def ClimateSystem.setWeatherHumidity (weather : String) : ℝ :=
  if weather = "rain" then 0.9
  else if weather = "snow" then 0.7
  else if weather = "storm" then 1.0
  else 0.3

/-- The application state touched by the humidity mutation path: the grounding
configuration plus the terrain's own humidity copy. -/
structure SimState where
  groundingSystem : GroundingSystem
  terrainHumidity : ℝ

/-- The `humidity` arm of `handleTerrainChange(param, value)` in `main.js`:
`this.terrain.setHumidity(value)` followed by
`this.groundingSystem.humidity = value`. -/
def handleTerrainChangeHumidity (s : SimState) (value : ℝ) : SimState :=
  { groundingSystem := { s.groundingSystem with humidity := value }
    terrainHumidity := Terrain.setHumidity value }

/-- The humidity effect of the `weather` arm of `handleClimateChange` in
`main.js`: the climate's weather-derived humidity is written both to the
terrain and to the grounding configuration. -/
def handleClimateChangeWeather (s : SimState) (value : String) : SimState :=
  { groundingSystem := { s.groundingSystem with
      weather := value
      humidity := ClimateSystem.setWeatherHumidity value }
    terrainHumidity := Terrain.setHumidity (ClimateSystem.setWeatherHumidity value) }

/-! ## Helper lemmas -/

/-- The efficiency percentage never exceeds 100 in any branch. -/
lemma calculateEfficiency_le_100 (r : EReal) (t : ℝ) : calculateEfficiency r t ≤ 100 := by
  unfold calculateEfficiency
  split_ifs
  · norm_num
  · norm_num
  · exact max_le (by norm_num) (min_le_left _ _)

/-- The efficiency percentage is non-negative in any branch. -/
lemma calculateEfficiency_nonneg (r : EReal) (t : ℝ) : 0 ≤ calculateEfficiency r t := by
  unfold calculateEfficiency
  split_ifs
  · norm_num
  · norm_num
  · exact le_max_left _ _

/-- On a finite resistance strictly between `0` and `10·target` the efficiency
takes its interpolation-branch value. -/
lemma calculateEfficiency_coe (x t : ℝ) (hx : 0 < x) (hlt : x < t * 10) :
    calculateEfficiency ((x : ℝ) : EReal) t
      = max 0 (min 100 ((1 - (x - t) / (t * 9)) * 100)) := by
  unfold calculateEfficiency
  rw [if_neg (by simp only [EReal.coe_nonpos, not_le]; exact hx),
    if_neg (by rw [EReal.coe_le_coe_iff]; exact not_le.2 hlt),
    EReal.toReal_coe]

/-! ## Theorems -/

/-- C10: `calculateRadialContribution` is independent of its first argument:
the `baseResistance` parameter is accepted but never used, so any two base
resistances give the same reduction factor. -/
theorem C10_radial_contribution_ignores_base (r1 r2 : EReal)
    (radialCount radialLength : ℝ) :
    calculateRadialContribution r1 radialCount radialLength
      = calculateRadialContribution r2 radialCount radialLength := rfl

/-- C7: for non-negative radial count and length the radial reduction factor
lies in `[0.6, 1]`; it is `1` when either argument is zero, and otherwise it is
`1 − min 0.4 (radialCount·radialLength·0.005)`, so the reduction never exceeds
40 % however large the product grows. -/
theorem C7_radial_factor_bounds (radialCount radialLength : ℝ)
    (hc : 0 ≤ radialCount) (hl : 0 ≤ radialLength) :
    (∀ b : EReal, 0.6 ≤ calculateRadialContribution b radialCount radialLength ∧
        calculateRadialContribution b radialCount radialLength ≤ 1) ∧
    (radialCount = 0 ∨ radialLength = 0 →
      ∀ b : EReal, calculateRadialContribution b radialCount radialLength = 1) ∧
    (radialCount ≠ 0 → radialLength ≠ 0 →
      ∀ b : EReal, calculateRadialContribution b radialCount radialLength
        = 1 - min 0.4 (radialCount * radialLength * 0.005)) := by
  refine ⟨fun b => ?_, fun h b => ?_, fun h1 h2 b => ?_⟩
  · unfold calculateRadialContribution
    split_ifs with h
    · norm_num
    · have hx : 0 ≤ radialCount * radialLength * 0.005 := by positivity
      constructor
      · have : min 0.4 (radialCount * radialLength * 0.005) ≤ 0.4 := min_le_left _ _
        linarith
      · have : (0:ℝ) ≤ min 0.4 (radialCount * radialLength * 0.005) :=
          le_min (by norm_num) hx
        linarith
  · unfold calculateRadialContribution
    exact if_pos h
  · unfold calculateRadialContribution
    exact if_neg (by tauto)

/-- C7 witness: at `radialCount = 8`, `radialLength = 5` the factor lies in
`[0.6, 1]` and equals `1 − min 0.4 0.2 = 0.8`. -/
theorem C7_witness :
    (0.6 ≤ calculateRadialContribution ⊤ 8 5 ∧ calculateRadialContribution ⊤ 8 5 ≤ 1) ∧
      calculateRadialContribution ⊤ 8 5 = 1 - min 0.4 (8 * 5 * 0.005) :=
  ⟨(C7_radial_factor_bounds 8 5 (by norm_num) (by norm_num)).1 ⊤,
   (C7_radial_factor_bounds 8 5 (by norm_num) (by norm_num)).2.2
     (by norm_num) (by norm_num) ⊤⟩

/-- C6: for positive spacing and length, `getCouplingFactor` depends only on
the quotient `spacing / length`, takes exactly the tabulated step values, and
is antitone in that quotient. -/
theorem C6_coupling_table (spacing length : ℝ)
    (hs : 0 < spacing) (hl : 0 < length) :
    (∀ s2 l2 : ℝ, 0 < s2 → 0 < l2 → spacing / length = s2 / l2 →
        getCouplingFactor spacing length = getCouplingFactor s2 l2) ∧
    ((2 ≤ spacing / length → getCouplingFactor spacing length = 0) ∧
     (1.5 ≤ spacing / length ∧ spacing / length < 2 →
        getCouplingFactor spacing length = 0.1) ∧
     (1 ≤ spacing / length ∧ spacing / length < 1.5 →
        getCouplingFactor spacing length = 0.2) ∧
     (0.7 ≤ spacing / length ∧ spacing / length < 1 →
        getCouplingFactor spacing length = 0.35) ∧
     (0.5 ≤ spacing / length ∧ spacing / length < 0.7 →
        getCouplingFactor spacing length = 0.5) ∧
     (spacing / length < 0.5 → getCouplingFactor spacing length = 0.7)) ∧
    (∀ s2 l2 : ℝ, 0 < s2 → 0 < l2 → spacing / length ≤ s2 / l2 →
        getCouplingFactor s2 l2 ≤ getCouplingFactor spacing length) := by
  refine ⟨fun s2 l2 _ _ h => ?_, ⟨?_, ?_, ?_, ?_, ?_, ?_⟩, fun s2 l2 _ _ h => ?_⟩
  · unfold getCouplingFactor
    rw [h]
  · intro h; unfold getCouplingFactor; rw [if_pos h]
  · rintro ⟨h1, h2⟩; unfold getCouplingFactor
    rw [if_neg (by linarith), if_pos h1]
  · rintro ⟨h1, h2⟩; unfold getCouplingFactor
    rw [if_neg (by linarith), if_neg (by linarith), if_pos h1]
  · rintro ⟨h1, h2⟩; unfold getCouplingFactor
    rw [if_neg (by linarith), if_neg (by linarith), if_neg (by linarith), if_pos h1]
  · rintro ⟨h1, h2⟩; unfold getCouplingFactor
    rw [if_neg (by linarith), if_neg (by linarith), if_neg (by linarith),
      if_neg (by linarith), if_pos h1]
  · intro h; unfold getCouplingFactor
    rw [if_neg (by linarith), if_neg (by linarith), if_neg (by linarith),
      if_neg (by linarith), if_neg (by linarith)]
  · unfold getCouplingFactor
    split_ifs <;> linarith

/-- C6 witness: spacing 3, length 2.4 (ratio 1.25) gives factor 0.2, and the
factor at ratio 4 (spacing 4, length 1) is below it. -/
theorem C6_witness :
    getCouplingFactor 3 2.4 = 0.2 ∧ getCouplingFactor 4 1 ≤ getCouplingFactor 3 2.4 :=
  ⟨(C6_coupling_table 3 2.4 (by norm_num) (by norm_num)).2.1.2.2.1 (by norm_num),
   (C6_coupling_table 3 2.4 (by norm_num) (by norm_num)).2.2 4 1
     (by norm_num) (by norm_num) (by norm_num)⟩

/-- C4: with the coupling factor `λ ∈ [0, 0.7]` held fixed and a non-negative
single-rod resistance, increasing the rod count from `n` to `n + 1` (for
integer `n ≥ 1`) never increases the combined parallel resistance. -/
theorem C4_parallel_resistance_antitone (singleR couplingF : ℝ) (n : ℕ)
    (hr : 0 ≤ singleR) (hc0 : 0 ≤ couplingF) (hc7 : couplingF ≤ 0.7) (hn : 1 ≤ n) :
    calculateParallelResistance ((singleR : ℝ) : EReal) ((n : ℝ) + 1) couplingF
      ≤ calculateParallelResistance ((singleR : ℝ) : EReal) (n : ℝ) couplingF := by
  have hn1 : (1 : ℝ) ≤ (n : ℝ) := by exact_mod_cast hn
  unfold calculateParallelResistance
  rcases eq_or_lt_of_le hn1 with h1 | h2
  · rw [if_neg (by linarith), if_neg (by linarith), if_neg (by linarith),
      if_pos h1.symm, ← h1]
    rw [← EReal.coe_div, ← EReal.coe_mul]
    rw [EReal.coe_le_coe_iff]
    nlinarith
  · have h2' : (2 : ℝ) ≤ (n : ℝ) := by
      have hnn : (2 : ℕ) ≤ n := by
        rcases Nat.lt_or_ge n 2 with hlt | hge
        · exfalso
          have hne : n = 1 := by omega
          rw [hne] at h2
          norm_num at h2
        · exact hge
      exact_mod_cast hnn
    rw [if_neg (by linarith), if_neg (by linarith), if_neg (by linarith),
      if_neg (by linarith)]
    rw [show (((n : ℝ) + 1 : ℝ) : EReal) = (((n : ℝ) + 1 : ℝ) : EReal) from rfl]
    rw [← EReal.coe_div, ← EReal.coe_div, ← EReal.coe_mul, ← EReal.coe_mul,
      EReal.coe_le_coe_iff]
    rw [div_mul_eq_mul_div, div_mul_eq_mul_div,
      div_le_div_iff₀ (by linarith) (by linarith)]
    nlinarith [mul_nonneg hr (by linarith : (0:ℝ) ≤ 1 - couplingF)]

/-- C4 witness: at `singleR = 1`, `λ = 0.2`, going from 1 rod to 2 rods does
not increase the parallel resistance. -/
theorem C4_witness :
    calculateParallelResistance ((1 : ℝ) : EReal) (((1 : ℕ) : ℝ) + 1) 0.2
      ≤ calculateParallelResistance ((1 : ℝ) : EReal) ((1 : ℕ) : ℝ) 0.2 :=
  C4_parallel_resistance_antitone 1 0.2 1 (by norm_num) (by norm_num)
    (by norm_num) (by norm_num)

/-- C5: for every positive target, efficiency at resistance = target is 100,
efficiency at resistance = 10·target is 0, and efficiency is monotonically
non-increasing in the resistance. -/
theorem C5_efficiency_props (t : ℝ) (ht : 0 < t) :
    calculateEfficiency ((t : ℝ) : EReal) t = 100 ∧
    calculateEfficiency ((10 * t : ℝ) : EReal) t = 0 ∧
    ∀ r1 r2 : EReal, r1 ≤ r2 →
      calculateEfficiency r2 t ≤ calculateEfficiency r1 t := by
  refine ⟨?_, ?_, ?_⟩
  · rw [calculateEfficiency_coe t t ht (by nlinarith), sub_self, zero_div]
    norm_num
  · unfold calculateEfficiency
    rw [if_neg (by simp only [EReal.coe_nonpos, not_le]; nlinarith),
      if_pos (by rw [EReal.coe_le_coe_iff]; linarith)]
  · intro r1 r2 h12
    by_cases h1 : r1 ≤ (0 : EReal)
    · have e1 : calculateEfficiency r1 t = 100 := by
        unfold calculateEfficiency; rw [if_pos h1]
      rw [e1]; exact calculateEfficiency_le_100 r2 t
    · by_cases h2 : ((t * 10 : ℝ) : EReal) ≤ r1
      · have e1 : calculateEfficiency r1 t = 0 := by
          unfold calculateEfficiency; rw [if_neg h1, if_pos h2]
        have e2 : calculateEfficiency r2 t = 0 := by
          unfold calculateEfficiency
          rw [if_neg (fun hcon => h1 (h12.trans hcon)), if_pos (h2.trans h12)]
        rw [e1, e2]
      · by_cases h3 : ((t * 10 : ℝ) : EReal) ≤ r2
        · have e2 : calculateEfficiency r2 t = 0 := by
            unfold calculateEfficiency
            rw [if_neg, if_pos h3]
            intro hcon
            have h0 : ((t * 10 : ℝ) : EReal) ≤ 0 := h3.trans hcon
            rw [EReal.coe_nonpos] at h0
            nlinarith
          rw [e2]; exact calculateEfficiency_nonneg r1 t
        · have h1' : (0 : EReal) < r1 := not_le.1 h1
          have h2' : r1 < ((t * 10 : ℝ) : EReal) := not_le.1 h2
          have h3' : r2 < ((t * 10 : ℝ) : EReal) := not_le.1 h3
          have hr1bot : r1 ≠ ⊥ := (lt_of_le_of_lt bot_le h1').ne'
          have hr1top : r1 ≠ ⊤ := (h2'.trans (EReal.coe_lt_top _)).ne
          have hr2bot : r2 ≠ ⊥ := (lt_of_le_of_lt bot_le (h1'.trans_le h12)).ne'
          have hr2top : r2 ≠ ⊤ := (h3'.trans (EReal.coe_lt_top _)).ne
          have e1 : ((r1.toReal : ℝ) : EReal) = r1 := EReal.coe_toReal hr1top hr1bot
          have e2 : ((r2.toReal : ℝ) : EReal) = r2 := EReal.coe_toReal hr2top hr2bot
          have ha : 0 < r1.toReal := by
            rw [← EReal.coe_pos]; rw [e1]; exact h1'
          have hb : 0 < r2.toReal := by
            rw [← EReal.coe_pos]; rw [e2]; exact h1'.trans_le h12
          have hab : r1.toReal ≤ r2.toReal := EReal.toReal_le_toReal h12 hr1bot hr2top
          have hau : r1.toReal < t * 10 := by
            rw [← EReal.coe_lt_coe_iff]; rw [e1]; exact h2'
          have hbu : r2.toReal < t * 10 := by
            rw [← EReal.coe_lt_coe_iff]; rw [e2]; exact h3'
          rw [← e1, ← e2, calculateEfficiency_coe _ t ha hau,
            calculateEfficiency_coe _ t hb hbu]
          have hdiv : (r1.toReal - t) / (t * 9) ≤ (r2.toReal - t) / (t * 9) := by
            rw [div_eq_mul_inv, div_eq_mul_inv]
            exact mul_le_mul_of_nonneg_right (by linarith) (by positivity)
          exact max_le_max (le_refl 0)
            (min_le_min (le_refl 100) (by nlinarith))

/-- C5 witness: at target 5, efficiency is 100 at resistance 5, 0 at
resistance 50, and non-increasing between resistances 6 and 8. -/
theorem C5_witness :
    calculateEfficiency ((5 : ℝ) : EReal) 5 = 100 ∧
    calculateEfficiency ((10 * 5 : ℝ) : EReal) 5 = 0 ∧
    calculateEfficiency ((8 : ℝ) : EReal) 5 ≤ calculateEfficiency ((6 : ℝ) : EReal) 5 :=
  ⟨(C5_efficiency_props 5 (by norm_num)).1,
   (C5_efficiency_props 5 (by norm_num)).2.1,
   (C5_efficiency_props 5 (by norm_num)).2.2 ((6 : ℝ) : EReal) ((8 : ℝ) : EReal)
     (by rw [EReal.coe_le_coe_iff]; norm_num)⟩

/-- C8: for non-negative base resistivity and humidity in `[0,1]`, the adjusted
resistivity is at least `0.21 ·` base, and (for positive base) that minimum is
attained exactly at weather `storm` with humidity `1`. -/
theorem C8_storm_minimum (base : ℝ) (weather : String) (humidity : ℝ)
    (hb : 0 ≤ base) (h0 : 0 ≤ humidity) (h1 : humidity ≤ 1) :
    0.21 * base ≤ adjustResistivityForWeather base weather humidity ∧
    (0 < base →
      (adjustResistivityForWeather base weather humidity = 0.21 * base ↔
        weather = "storm" ∧ humidity = 1)) := by
  have hbh : base * humidity ≤ base := by nlinarith
  unfold adjustResistivityForWeather
  split_ifs with hw1 hw2 hw3 hw4
  · refine ⟨by nlinarith, fun hbpos => ⟨fun heq => ?_, fun ⟨hst, _⟩ => ?_⟩⟩
    · exfalso; nlinarith
    · exact absurd (hw1 ▸ hst) (by decide)
  · refine ⟨by nlinarith, fun hbpos => ⟨fun heq => ⟨hw2, ?_⟩, fun ⟨_, hh⟩ => ?_⟩⟩
    · have h9 : base * (1 - humidity) = 0 := by nlinarith
      rcases mul_eq_zero.1 h9 with hc | hc
      · exact absurd hc (ne_of_gt hbpos)
      · linarith
    · rw [hh]; ring
  · refine ⟨by nlinarith, fun hbpos => ⟨fun heq => ?_, fun ⟨hst, _⟩ => ?_⟩⟩
    · exfalso; nlinarith
    · exact absurd (hw3 ▸ hst) (by decide)
  · refine ⟨by nlinarith, fun hbpos => ⟨fun heq => ?_, fun ⟨hst, _⟩ => ?_⟩⟩
    · exfalso; nlinarith
    · exact absurd (hw4 ▸ hst) (by decide)
  · refine ⟨by nlinarith, fun hbpos => ⟨fun heq => ?_, fun ⟨hst, _⟩ => ?_⟩⟩
    · exfalso; nlinarith
    · exact absurd hst hw2

/-- C8 witness: on clay (base 40) with storm and humidity 1 the adjusted
resistivity equals `0.21 × 40`, and it is never below that. -/
theorem C8_witness :
    0.21 * 40 ≤ adjustResistivityForWeather 40 "storm" 1 ∧
    adjustResistivityForWeather 40 "storm" 1 = 0.21 * 40 :=
  ⟨(C8_storm_minimum 40 "storm" 1 (by norm_num) (by norm_num) (by norm_num)).1,
   ((C8_storm_minimum 40 "storm" 1 (by norm_num) (by norm_num) (by norm_num)).2
     (by norm_num)).2 ⟨rfl, rfl⟩⟩

/-- C3 counterexample: passing humidity `2` through the terrain humidity
mutation path stores `2` in the grounding configuration, which is not in
`[0,1]` — the grounding-configuration store does not clamp. -/
theorem C3_counterexample :
    (handleTerrainChangeHumidity ⟨GroundingSystem.init, 0.5⟩ 2).groundingSystem.humidity
        = 2 ∧
    ¬((handleTerrainChangeHumidity ⟨GroundingSystem.init, 0.5⟩ 2).groundingSystem.humidity
        ≤ 1) :=
  ⟨rfl, by norm_num [handleTerrainChangeHumidity]⟩

/-- C3 (amended): the terrain humidity mutation path stores the raw value into
the grounding configuration (so it lies in `[0,1]` exactly when the input
does); only the terrain's own humidity copy is clamped to `[0,1]`, and the
climate-driven humidity writes always lie in `[0,1]`. -/
theorem C3_humidity_amended (s : SimState) (v : ℝ) (w : String) :
    (handleTerrainChangeHumidity s v).groundingSystem.humidity = v ∧
    (0 ≤ v → v ≤ 1 →
      0 ≤ (handleTerrainChangeHumidity s v).groundingSystem.humidity ∧
      (handleTerrainChangeHumidity s v).groundingSystem.humidity ≤ 1) ∧
    (0 ≤ (handleTerrainChangeHumidity s v).terrainHumidity ∧
      (handleTerrainChangeHumidity s v).terrainHumidity ≤ 1) ∧
    (0 ≤ (handleClimateChangeWeather s w).groundingSystem.humidity ∧
      (handleClimateChangeWeather s w).groundingSystem.humidity ≤ 1) := by
  refine ⟨rfl, fun h0 h1 => ⟨h0, h1⟩, ⟨le_max_left _ _, ?_⟩, ?_⟩
  · exact max_le (by norm_num) (min_le_left _ _)
  · show 0 ≤ ClimateSystem.setWeatherHumidity w ∧ ClimateSystem.setWeatherHumidity w ≤ 1
    unfold ClimateSystem.setWeatherHumidity
    split_ifs <;> norm_num

/-- C3 witness: at input humidity `0.5` the value stored in the grounding
configuration lies in `[0,1]`. -/
theorem C3_witness :
    0 ≤ (handleTerrainChangeHumidity ⟨GroundingSystem.init, 0.5⟩
        0.5).groundingSystem.humidity ∧
    (handleTerrainChangeHumidity ⟨GroundingSystem.init, 0.5⟩
        0.5).groundingSystem.humidity ≤ 1 :=
  (C3_humidity_amended ⟨GroundingSystem.init, 0.5⟩ 0.5 "rain").2.1
    (by norm_num) (by norm_num)

/-- C9: `calculate()` leaves every configuration field unchanged (the method
body assigns no `this` field), and two consecutive calls with no intervening
mutation return identical metrics snapshots. -/
theorem C9_calculate_pure (sys : GroundingSystem) :
    (sys.calculateS).1 = sys ∧
    ((sys.calculateS).1.rodCount = sys.rodCount ∧
     (sys.calculateS).1.rodLength = sys.rodLength ∧
     (sys.calculateS).1.rodDiameter = sys.rodDiameter ∧
     (sys.calculateS).1.rodSpacing = sys.rodSpacing ∧
     (sys.calculateS).1.radialCount = sys.radialCount ∧
     (sys.calculateS).1.radialLength = sys.radialLength ∧
     (sys.calculateS).1.soilType = sys.soilType ∧
     (sys.calculateS).1.weather = sys.weather ∧
     (sys.calculateS).1.humidity = sys.humidity ∧
     (sys.calculateS).1.faultVoltage = sys.faultVoltage ∧
     (sys.calculateS).1.targetResistance = sys.targetResistance) ∧
    ((sys.calculateS).1.calculateS).2 = (sys.calculateS).2 :=
  ⟨rfl, ⟨rfl, rfl, rfl, rfl, rfl, rfl, rfl, rfl, rfl, rfl, rfl⟩, rfl⟩

/-- The parallel combination returns `Infinity` whenever the rod count is not
positive. -/
lemma parallel_top (S : EReal) (c : ℝ) {n : ℝ} (h : n ≤ 0) :
    calculateParallelResistance S n c = ⊤ := by
  unfold calculateParallelResistance
  rw [if_pos h]

/-- The radial reduction factor is strictly positive for all arguments. -/
lemma calculateRadialContribution_pos (b : EReal) (rc rl : ℝ) :
    0 < calculateRadialContribution b rc rl := by
  unfold calculateRadialContribution
  split_ifs
  · norm_num
  · have : min 0.4 (rc * rl * 0.005) ≤ 0.4 := min_le_left _ _
    linarith

/-- Infinite resistance classifies as zero efficiency. -/
lemma calculateEfficiency_top (t : ℝ) : calculateEfficiency ⊤ t = 0 := by
  unfold calculateEfficiency
  rw [if_neg (by simp), if_pos le_top]

/-- Infinite resistance classifies as the `danger` status. -/
lemma getSystemStatus_top :
    getSystemStatus ⊤ = { status := "danger", color := "#ff4444", message := "Peligro" } := by
  unfold getSystemStatus
  rw [if_neg (by simp), if_neg (by simp), if_neg (by simp)]

/-- Infinite resistance does not trigger the non-positive guard and yields zero
fault current by ordinary division. -/
lemma calculateFaultCurrent_top (v : ℝ) : calculateFaultCurrent v ⊤ = 0 := by
  unfold calculateFaultCurrent
  rw [if_neg (by simp)]
  exact EReal.div_top

/-- C2: for any configuration with `rodCount = 0` and every other field in its
declared valid domain (positive rod geometry and spacing, integral
non-negative radial count, non-negative radial length, a known soil tag and
weather tag, humidity in `[0,1]`, positive fault voltage and target),
`calculate()` returns a finite single-rod resistance, an infinite total
resistance, efficiency 0, status `danger`, and fault current 0, where the
infinite resistance does not satisfy the `resistance ≤ 0` guard and the zero
fault current comes from the ordinary division `voltage / ∞`. -/
theorem C2_zero_rods (sys : GroundingSystem) (h0 : sys.rodCount = 0)
    (hL : 0 < sys.rodLength) (hD : 0 < sys.rodDiameter) (hS : 0 < sys.rodSpacing)
    (hRC : ∃ k : ℕ, sys.radialCount = (k : ℝ)) (hRL : 0 ≤ sys.radialLength)
    (hsoil : sys.soilType
      ∈ (["wet", "clay", "loam", "sandy", "gravel", "rocky", "dry"] : List String))
    (hweather : sys.weather ∈ (["sunny", "rain", "storm", "snow"] : List String))
    (hhum0 : 0 ≤ sys.humidity) (hhum1 : sys.humidity ≤ 1)
    (hV : 0 < sys.faultVoltage) (hT : 0 < sys.targetResistance) :
    (∃ r : ℝ, sys.calculate.singleRodResistance = ((r : ℝ) : EReal)) ∧
    sys.calculate.totalResistance = ⊤ ∧
    sys.calculate.efficiency = 0 ∧
    sys.calculate.status = { status := "danger", color := "#ff4444", message := "Peligro" } ∧
    ¬(sys.calculate.totalResistance ≤ 0) ∧
    sys.calculate.faultCurrent
      = ((sys.faultVoltage : ℝ) : EReal) / sys.calculate.totalResistance ∧
    sys.calculate.faultCurrent = 0 := by
  have hsingle : sys.calculate.singleRodResistance
      = ((adjustResistivityForWeather ((SOIL_RESISTIVITY sys.soilType).getD 100)
            sys.weather sys.humidity / (2 * π * sys.rodLength)
          * Real.log (4 * sys.rodLength / sys.rodDiameter) : ℝ) : EReal) := by
    show calculateSingleRodResistance _ sys.rodLength sys.rodDiameter = _
    unfold calculateSingleRodResistance
    rw [if_neg (by push_neg; exact ⟨hL, hD⟩)]
  have htot : sys.calculate.totalResistance = ⊤ := by
    show calculateParallelResistance _ sys.rodCount _
        * ((calculateRadialContribution _ sys.radialCount sys.radialLength : ℝ) : EReal) = ⊤
    rw [parallel_top _ _ (le_of_eq h0)]
    exact EReal.top_mul_of_pos
      (by exact_mod_cast calculateRadialContribution_pos _ sys.radialCount sys.radialLength)
  have hnotle : ¬(sys.calculate.totalResistance ≤ 0) := by
    rw [htot]; simp
  refine ⟨⟨_, hsingle⟩, htot, ?_, ?_, hnotle, ?_, ?_⟩
  · show calculateEfficiency sys.calculate.totalResistance sys.targetResistance = 0
    rw [htot]; exact calculateEfficiency_top _
  · show getSystemStatus sys.calculate.totalResistance = _
    rw [htot]; exact getSystemStatus_top
  · show calculateFaultCurrent sys.faultVoltage sys.calculate.totalResistance
        = ((sys.faultVoltage : ℝ) : EReal) / sys.calculate.totalResistance
    unfold calculateFaultCurrent
    rw [if_neg hnotle]
  · show calculateFaultCurrent sys.faultVoltage sys.calculate.totalResistance = 0
    rw [htot]; exact calculateFaultCurrent_top _

/-- C2 witness: the default configuration with `rodCount := 0` lies in all the
declared valid domains (rod length 2.4, diameter 0.016, spacing 3, radial
count 8, radial length 5, soil `clay`, weather `sunny`, humidity 0.5, fault
voltage 220, target 5) and exhibits the infinite total resistance, zero
efficiency, danger status, and zero fault current. -/
theorem C2_witness :
    ({ GroundingSystem.init with rodCount := 0 } :
        GroundingSystem).calculate.totalResistance = ⊤ ∧
    ({ GroundingSystem.init with rodCount := 0 } :
        GroundingSystem).calculate.efficiency = 0 ∧
    ({ GroundingSystem.init with rodCount := 0 } :
        GroundingSystem).calculate.status
      = { status := "danger", color := "#ff4444", message := "Peligro" } ∧
    ({ GroundingSystem.init with rodCount := 0 } :
        GroundingSystem).calculate.faultCurrent = 0 := by
  have h := C2_zero_rods { GroundingSystem.init with rodCount := 0 } rfl
    (by norm_num [GroundingSystem.init]) (by norm_num [GroundingSystem.init])
    (by norm_num [GroundingSystem.init]) ⟨8, by norm_num [GroundingSystem.init]⟩
    (by norm_num [GroundingSystem.init]) (by simp [GroundingSystem.init])
    (by simp [GroundingSystem.init]) (by norm_num [GroundingSystem.init])
    (by norm_num [GroundingSystem.init]) (by norm_num [GroundingSystem.init])
    (by norm_num [GroundingSystem.init])
  exact ⟨h.2.1, h.2.2.1, h.2.2.2.1, h.2.2.2.2.2.2⟩

/-- Rational bounds on `ln 600`, via `600 = 2⁹ · 75/64`, the decimal bounds on
`ln 2`, and `ln x ≤ x − 1`. -/
lemma log600_bounds : 6.3849 < Real.log 600 ∧ Real.log 600 < 6.411 := by
  have h600 : (600 : ℝ) = 2 ^ 9 * (75 / 64) := by norm_num
  have hlog : Real.log 600 = 9 * Real.log 2 + Real.log (75 / 64) := by
    rw [h600, Real.log_mul (by positivity) (by norm_num), Real.log_pow]
    push_cast
    ring
  have hub : Real.log (75 / 64) ≤ 75 / 64 - 1 :=
    Real.log_le_sub_one_of_pos (by norm_num)
  have hlb : 11 / 75 ≤ Real.log (75 / 64) := by
    have hi : Real.log (64 / 75) ≤ 64 / 75 - 1 :=
      Real.log_le_sub_one_of_pos (by norm_num)
    have he : Real.log (64 / 75) = -Real.log (75 / 64) := by
      rw [show (64 / 75 : ℝ) = (75 / 64)⁻¹ by norm_num, Real.log_inv]
    rw [he] at hi
    linarith
  exact ⟨by rw [hlog]; linarith [Real.log_two_gt_d9],
    by rw [hlog]; linarith [Real.log_two_lt_d9]⟩

/-- Numeric bounds on the scenario-A total resistance
`(34 / 2π·2.4) · ln 600 / 4 · 1.6 · 0.8`. -/
lemma scenarioA_total_bounds :
    4.6 < (34 / (2 * π * 2.4) * Real.log 600 / 4 * (1 + 0.2 * (4 - 1)) * 0.8 : ℝ) ∧
    (34 / (2 * π * 2.4) * Real.log 600 / 4 * (1 + 0.2 * (4 - 1)) * 0.8 : ℝ) < 4.63 := by
  obtain ⟨hL1, hL2⟩ := log600_bounds
  have hπ1 : 3.141592 < π := Real.pi_gt_d6
  have hπ2 : π < 3.141593 := Real.pi_lt_d6
  have hπ0 : 0 < π := Real.pi_pos
  have hform : (34 / (2 * π * 2.4) * Real.log 600 / 4 * (1 + 0.2 * (4 - 1)) * 0.8 : ℝ)
      = 34 / 15 * Real.log 600 / π := by
    field_simp
    ring
  rw [hform]
  constructor
  · rw [lt_div_iff₀ hπ0]
    nlinarith
  · rw [div_lt_iff₀ hπ0]
    nlinarith

/-- C1: on the default configuration, `calculate()` yields adjusted resistivity
exactly 34 Ω·m, coupling factor exactly 0.2, radial reduction factor exactly
0.8, a total resistance in (4.6, 4.63) — hence ≈ 4.62 and at most 5 Ω, so the
status is `excellent` — and a fault current equal to `220 / totalResistance`,
lying in (47.5, 47.9), hence ≈ 47.6 A. -/
theorem C1_scenarioA_default_metrics :
    GroundingSystem.init.calculate.resistivity = 34 ∧
    GroundingSystem.init.calculate.couplingFactor = 0.2 ∧
    (∀ b : EReal, calculateRadialContribution b GroundingSystem.init.radialCount
        GroundingSystem.init.radialLength = 0.8) ∧
    ((4.6 : ℝ) : EReal) < GroundingSystem.init.calculate.totalResistance ∧
    GroundingSystem.init.calculate.totalResistance < ((4.63 : ℝ) : EReal) ∧
    GroundingSystem.init.calculate.totalResistance ≤ ((5 : ℝ) : EReal) ∧
    GroundingSystem.init.calculate.status
      = { status := "excellent", color := "#00ff88", message := "Excelente" } ∧
    GroundingSystem.init.calculate.faultCurrent
      = ((220 : ℝ) : EReal) / GroundingSystem.init.calculate.totalResistance ∧
    ((47.5 : ℝ) : EReal) < GroundingSystem.init.calculate.faultCurrent ∧
    GroundingSystem.init.calculate.faultCurrent < ((47.9 : ℝ) : EReal) := by
  obtain ⟨hTlb, hTub⟩ := scenarioA_total_bounds
  have hρ : GroundingSystem.init.calculate.resistivity = 34 := by
    show adjustResistivityForWeather ((SOIL_RESISTIVITY "clay").getD 100) "sunny" 0.5 = 34
    have hsoil : (SOIL_RESISTIVITY "clay").getD 100 = 40 := by
      unfold SOIL_RESISTIVITY
      rw [if_neg (by decide), if_pos rfl]
      rfl
    rw [hsoil]
    unfold adjustResistivityForWeather
    rw [if_neg (by decide), if_neg (by decide), if_neg (by decide), if_pos rfl]
    norm_num
  have hρ' : adjustResistivityForWeather ((SOIL_RESISTIVITY "clay").getD 100) "sunny" 0.5
      = 34 := hρ
  have hcoup : GroundingSystem.init.calculate.couplingFactor = 0.2 := by
    show getCouplingFactor 3 2.4 = 0.2
    unfold getCouplingFactor
    rw [if_neg (by norm_num), if_neg (by norm_num), if_pos (by norm_num)]
  have hcoup' : getCouplingFactor 3 2.4 = 0.2 := hcoup
  have hrad : ∀ b : EReal, calculateRadialContribution b 8 5 = 0.8 := by
    intro b
    unfold calculateRadialContribution
    rw [if_neg (by norm_num), min_eq_right (by norm_num : (8 * 5 * 0.005 : ℝ) ≤ 0.4)]
    norm_num
  have hsingle : GroundingSystem.init.calculate.singleRodResistance
      = ((34 / (2 * π * 2.4) * Real.log 600 : ℝ) : EReal) := by
    show calculateSingleRodResistance
        (adjustResistivityForWeather ((SOIL_RESISTIVITY "clay").getD 100) "sunny" 0.5)
        2.4 0.016 = _
    rw [hρ']
    unfold calculateSingleRodResistance
    rw [if_neg (by norm_num), show (4 * 2.4 / 0.016 : ℝ) = 600 by norm_num]
  have htotv : GroundingSystem.init.calculate.totalResistance
      = ((34 / (2 * π * 2.4) * Real.log 600 / 4 * (1 + 0.2 * (4 - 1)) * 0.8 : ℝ)
          : EReal) := by
    show calculateParallelResistance GroundingSystem.init.calculate.singleRodResistance 4
          (getCouplingFactor 3 2.4)
        * ((calculateRadialContribution
            (calculateParallelResistance GroundingSystem.init.calculate.singleRodResistance
              4 (getCouplingFactor 3 2.4)) 8 5 : ℝ) : EReal) = _
    rw [hrad, hsingle, hcoup']
    unfold calculateParallelResistance
    rw [if_neg (by norm_num), if_neg (by norm_num)]
    rw [← EReal.coe_div, ← EReal.coe_mul, ← EReal.coe_mul]
  have hfc : GroundingSystem.init.calculate.faultCurrent
      = ((220 / (34 / (2 * π * 2.4) * Real.log 600 / 4 * (1 + 0.2 * (4 - 1)) * 0.8) : ℝ)
          : EReal) := by
    show calculateFaultCurrent 220 GroundingSystem.init.calculate.totalResistance = _
    rw [htotv]
    unfold calculateFaultCurrent
    rw [if_neg (by simp only [EReal.coe_nonpos, not_le]; linarith), ← EReal.coe_div]
  refine ⟨hρ, hcoup, hrad, ?_, ?_, ?_, ?_, ?_, ?_, ?_⟩
  · rw [htotv, EReal.coe_lt_coe_iff]; exact hTlb
  · rw [htotv, EReal.coe_lt_coe_iff]; exact hTub
  · rw [htotv, EReal.coe_le_coe_iff]; linarith
  · show getSystemStatus GroundingSystem.init.calculate.totalResistance = _
    rw [htotv]
    unfold getSystemStatus
    rw [if_pos (by rw [EReal.coe_le_coe_iff]; linarith)]
  · rw [hfc, htotv]
    exact EReal.coe_div _ _
  · rw [hfc, EReal.coe_lt_coe_iff, lt_div_iff₀ (by linarith)]
    linarith
  · rw [hfc, EReal.coe_lt_coe_iff, div_lt_iff₀ (by linarith)]
    linarith

end GroundingSim

end
